import Mathlib

/-!
Verification of the DinnaFind geofencing core (`src/services/GeofencingService.ts`).

The TypeScript service is shallowly embedded: coordinates and radii become
rationals, timestamps become integers (milliseconds), `AsyncStorage` becomes an
association list from keys to values, and the background task handler becomes a
pure function from its inputs (the region identifier, the outcomes of the
storage reads it performs, the current time) to an outcome plus the updated
cooldown storage.
-/

namespace DinnaFind

/-- The `Geofence` record type of `GeofencingService.ts`:
`{ id, name, latitude, longitude, radius, venueId? }`. -/
structure Geofence where
  id : String
  name : String
  latitude : ℚ
  longitude : ℚ
  radius : ℚ
  venueId : Option String
deriving DecidableEq, Repr

/-- `NOTIFICATION_COOLDOWN = 1 * 60 * 1000 / 10` milliseconds. -/
def NOTIFICATION_COOLDOWN : Int := 1 * 60 * 1000 / 10

/-- The `AsyncStorage` key of a cooldown record for a region identifier:
the template literal `last_notification_${region.identifier}`. -/
def cooldownKey (identifier : String) : String :=
  "last_notification_" ++ identifier

/-- The cooldown portion of `AsyncStorage`: full string keys mapped to the
parsed integer timestamps stored under them. -/
def CooldownStore := List (String × Int)

/-- `AsyncStorage.getItem` on the cooldown store (already parsed with
`parseInt`): the value of the first entry whose key matches. -/
def lookupCooldown (st : List (String × Int)) (k : String) : Option Int :=
  (st.find? (fun p => p.1 == k)).map (fun p => p.2)

/-- `AsyncStorage.setItem` on the cooldown store: overwrite the existing
entry for the key, or insert a fresh one. -/
def setCooldown (st : List (String × Int)) (k : String) (v : Int) :
    List (String × Int) :=
  if (st.find? (fun p => p.1 == k)).isSome then
    st.map (fun p => if p.1 == k then (k, v) else p)
  else (k, v) :: st

/-- JavaScript `s.startsWith(pre)`, embedded at the character-list level. -/
def jsStartsWith (s pre : String) : Bool :=
  pre.data.isPrefixOf s.data

/-- `clearAllNotificationCooldowns`: `getAllKeys`, keep only the keys that do
not start with `last_notification_`, `multiRemove` the rest. -/
def clearAllNotificationCooldowns (st : List (String × Int)) :
    List (String × Int) :=
  st.filter (fun p => !(jsStartsWith p.1 "last_notification_"))

/-! ## The foreground service (`class GeofencingService`) -/

/-- Location permissions as seen by `_updateGeofences`: whether the foreground
and background permission statuses are `'granted'`. -/
structure Permissions where
  foreground : Bool
  background : Bool
deriving DecidableEq, Repr

/-- The state the service reads and writes: the in-memory `this.geofences`
array, the parsed content of the persisted `dinnafind_geofences` record, and
the cooldown portion of `AsyncStorage`. -/
structure ServiceState where
  geofences : List Geofence
  storedGeofences : List Geofence
  cooldowns : List (String × Int)
deriving DecidableEq, Repr

/-- `_saveGeofences`: persist the in-memory array under the storage key. -/
def saveGeofences (s : ServiceState) : ServiceState :=
  { s with storedGeofences := s.geofences }

/-- `getActiveGeofences`: returns `[...this.geofences]`, a copy of the
in-memory array. -/
def getActiveGeofences (s : ServiceState) : List Geofence :=
  s.geofences

/-- The region object handed to `Location.startGeofencingAsync`. -/
structure Region where
  identifier : String
  latitude : ℚ
  longitude : ℚ
  radius : ℚ
  notifyOnEnter : Bool
  notifyOnExit : Bool
deriving DecidableEq, Repr

/-- The per-geofence region construction inside `_updateGeofences`, including
the `Math.max(geofence.radius, 100)` radius clamp. -/
def toRegion (g : Geofence) : Region :=
  { identifier := g.id
    latitude := g.latitude
    longitude := g.longitude
    radius := max g.radius 100
    notifyOnEnter := true
    notifyOnExit := false }

/-- How a call to `_updateGeofences` resolved. -/
inductive UpdateResult where
  | noForegroundPermission
  | noBackgroundPermission
  | noGeofences
  | started (regions : List Region)
deriving DecidableEq, Repr

/-- `_updateGeofences`: check foreground then background permission (warn and
return when either is missing), stop any existing task, return when the set is
empty, otherwise re-save and start monitoring the clamped regions. -/
def updateGeofences (perms : Permissions) (s : ServiceState) :
    UpdateResult × ServiceState :=
  if !perms.foreground then (.noForegroundPermission, s)
  else if !perms.background then (.noBackgroundPermission, s)
  else if s.geofences.isEmpty then (.noGeofences, s)
  else
    let s1 := saveGeofences s
    (.started (s1.geofences.map toRegion), s1)

/-- The duplicate check and write of `addGeofence`: `findIndex` on `id`, then
either in-place replacement at that index or `push`. -/
def upsert (gs : List Geofence) (g : Geofence) : List Geofence :=
  match gs.findIdx? (fun x => x.id == g.id) with
  | some i => gs.set i g
  | none => gs ++ [g]

/-- `addGeofence`: reject a geofence whose `id` or `name` is falsy, upsert it
into the in-memory array, `_saveGeofences`, `_updateGeofences`. -/
def addGeofence (perms : Permissions) (s : ServiceState) (g : Geofence) :
    Except String (ServiceState × UpdateResult) :=
  if g.id.isEmpty || g.name.isEmpty then
    .error "Geofence must have both id and name"
  else
    let s1 := saveGeofences { s with geofences := upsert s.geofences g }
    let (res, s2) := updateGeofences perms s1
    .ok (s2, res)

/-- `clearAllGeofences`: empty the in-memory array, persist it, stop the OS
task, and clear every notification cooldown. -/
def clearAllGeofences (s : ServiceState) : ServiceState :=
  let s1 := saveGeofences { s with geofences := [] }
  { s1 with cooldowns := clearAllNotificationCooldowns s1.cooldowns }

/-! ## The background task handler (`TaskManager.defineTask`) -/

/-- One `AsyncStorage.getItem(STORAGE_KEY)` read, as the handler classifies
it: `noData` is `null` or the literal string `'[]'` (the guard-clause branch),
`malformed` is a non-empty string on which `JSON.parse` throws, and `parsed gs`
is a non-empty string parsing to the geofence array `gs`. -/
inductive GeofenceRead where
  | noData
  | malformed
  | parsed (gs : List Geofence)
deriving DecidableEq, Repr

/-- The lookup fallback chain of the handler's normal branch: exact `id`
match, then `venueId` match, then `name` match. -/
def resolveGeofence (gs : List Geofence) (identifier : String) :
    Option Geofence :=
  match gs.find? (fun g => g.id == identifier) with
  | some g => some g
  | none =>
    match gs.find? (fun g => g.venueId == some identifier) with
    | some g => some g
    | none => gs.find? (fun g => g.name == identifier)

/-- The retry loop of the guard-clause branch: up to `fuel` iterations, each
sleeping 500ms and re-reading the store; a read that is `null` or `'[]'` is
skipped, an unparseable read makes the unguarded `JSON.parse` throw, and a
parsed array is searched by exact `id` only, breaking on a hit.  Returns the
final `(restaurantName, venueId)` pair — initialized to `(identifier, none)` —
or the thrown parse error, together with the number of iterations executed. -/
def runRetries (identifier : String) :
    Nat → List GeofenceRead → Except Unit (String × Option String) × Nat
  | 0, _ => (.ok (identifier, none), 0)
  | fuel + 1, reads =>
    match reads.headD .noData with
    | .noData =>
      let r := runRetries identifier fuel reads.tail
      (r.1, r.2 + 1)
    | .malformed => (.error (), 1)
    | .parsed gs =>
      match gs.find? (fun g => g.id == identifier) with
      | some g => (.ok (g.name, g.venueId), 1)
      | none =>
        let r := runRetries identifier fuel reads.tail
        (r.1, r.2 + 1)

/-- The cooldown test: `lastTime` defaults to `0` when no record is stored,
and a notification goes out iff `now - lastTime > NOTIFICATION_COOLDOWN`. -/
def shouldNotify (lastNotification : Option Int) (now : Int) : Bool :=
  let lastTime := lastNotification.getD 0
  now - lastTime > NOTIFICATION_COOLDOWN

/-- How the handler's ENTER branch terminates. -/
inductive HandlerOutcome where
  /-- `Notifications.scheduleNotificationAsync` was called with this
  restaurant name and venue id. -/
  | notified (restaurantName : String) (venueId : Option String)
  /-- Cooldown still active: logged and skipped. -/
  | cooldownSkip (restaurantName : String)
  /-- Normal branch, fallback chain exhausted: critical error logged,
  notification skipped. -/
  | unresolvedSkip
  /-- Normal branch, `JSON.parse` threw: error logged, handler returned. -/
  | parseErrorSkip
  /-- Guard-clause branch, data still missing after the retries: error
  logged, notification skipped. -/
  | retryGiveUp
  /-- An exception escaped the handler (unguarded `JSON.parse` in the retry
  loop). -/
  | threw
deriving DecidableEq, Repr

/-- The ENTER branch of the geofence task handler, as a function of the
region identifier, the initial store read, the reads the retry loop would see,
the cooldown storage and the current time.  Returns the outcome and the
cooldown storage after the handler runs. -/
def handleEnter (identifier : String) (initialRead : GeofenceRead)
    (retryReads : List GeofenceRead) (cds : List (String × Int)) (now : Int) :
    HandlerOutcome × List (String × Int) :=
  let afterLookup : Except HandlerOutcome (String × Option String) :=
    match initialRead with
    | .noData =>
      match (runRetries identifier 6 retryReads).1 with
      | .error _ => .error .threw
      | .ok (name, vid) =>
        if name == identifier then .error .retryGiveUp
        else .ok (name, vid)
    | .malformed => .error .parseErrorSkip
    | .parsed gs =>
      match resolveGeofence gs identifier with
      | none => .error .unresolvedSkip
      | some g => .ok (g.name, g.venueId)
  match afterLookup with
  | .error out => (out, cds)
  | .ok (restaurantName, venueId) =>
    if shouldNotify (lookupCooldown cds (cooldownKey identifier)) now then
      (.notified restaurantName venueId,
        setCooldown cds (cooldownKey identifier) now)
    else
      (.cooldownSkip restaurantName, cds)

/-- The number of 500ms retry-loop iterations the handler executes for a given
initial read. -/
def handlerPolls (identifier : String) (initialRead : GeofenceRead)
    (retryReads : List GeofenceRead) : Nat :=
  match initialRead with
  | .noData => (runRetries identifier 6 retryReads).2
  | _ => 0

/-! ## Bucket-list rebuild (`rebuildGeofencesFromBucketList`) -/

/-- The parts of a saved item's `venue` object that the rebuild reads:
`venue.id`, `venue.name`, and the optional `venue.geocodes.main` coordinates
(`none` models an absent property along the optional chain). -/
structure Venue where
  id : String
  name : String
  latitude : Option ℚ
  longitude : Option ℚ
deriving DecidableEq, Repr

/-- A bucket-list item as the rebuild reads it. -/
structure BucketItem where
  id : String
  notificationsEnabled : Bool
  venue : Venue
deriving DecidableEq, Repr

/-- JavaScript truthiness of an optional numeric coordinate: present and
non-zero. -/
def truthyCoord : Option ℚ → Bool
  | none => false
  | some x => decide (x ≠ 0)

/-- The filter condition of the rebuild loop:
`item.notificationsEnabled && item.venue?.geocodes?.main?.latitude &&
item.venue?.geocodes?.main?.longitude`, each coordinate tested for
truthiness. -/
def qualifies (item : BucketItem) : Bool :=
  item.notificationsEnabled && truthyCoord item.venue.latitude &&
    truthyCoord item.venue.longitude

/-- The geofence the rebuild constructs for a qualifying item: the item's own
`id`, the venue's name and id, and `distanceMiles * 1609.34` meters as the
radius. -/
def itemGeofence (distanceMiles : ℚ) (item : BucketItem) : Geofence :=
  { id := item.id
    name := item.venue.name
    latitude := item.venue.latitude.getD 0
    longitude := item.venue.longitude.getD 0
    radius := distanceMiles * (160934 / 100 : ℚ)
    venueId := some item.venue.id }

/-- `rebuildGeofencesFromBucketList`: clear all geofences, then `addGeofence`
one geofence per item passing the filter (an `addGeofence` validation error
propagates out). -/
def rebuildGeofencesFromBucketList (perms : Permissions) (s : ServiceState)
    (bucketListItems : List BucketItem) (distanceMiles : ℚ) :
    Except String ServiceState :=
  bucketListItems.foldlM
    (fun st item =>
      if qualifies item then
        (addGeofence perms st (itemGeofence distanceMiles item)).map
          (fun r => r.1)
      else pure st)
    (clearAllGeofences s)

/-! ## Concrete sample values used by the witnesses -/

/-- A sample geofence: id `"a"`, name `"n"`, venue id `"v"`, radius 50. -/
def gA : Geofence := ⟨"a", "n", 1, 2, 50, some "v"⟩

/-- A second geofence with the same id as `gA` but different fields. -/
def gA2 : Geofence := ⟨"a", "n2", 1, 2, 500, none⟩

/-- A sample service state holding `gA` and one cooldown record. -/
def sampleState : ServiceState :=
  ⟨[gA], [gA], [("last_notification_a", 500)]⟩

/-- Sample bucket-list items: two with alerts enabled and truthy
coordinates, one with alerts disabled. -/
def item1 : BucketItem := ⟨"i1", true, ⟨"v1", "One", some 3, some 4⟩⟩

def item2 : BucketItem := ⟨"i2", true, ⟨"v2", "Two", some 5, some 6⟩⟩

def item3 : BucketItem := ⟨"i3", false, ⟨"v3", "Three", some 7, some 8⟩⟩

/-- A bucket-list item with alerts enabled but latitude exactly `0`. -/
def itemZ : BucketItem := ⟨"iz", true, ⟨"vz", "Zero", some 0, some 4⟩⟩

/-! ## Helper lemmas -/

theorem isPrefixOf_append_self (l t : List Char) :
    l.isPrefixOf (l ++ t) = true := by
  induction l with
  | nil => simp
  | cons a as ih => simp [List.isPrefixOf_cons₂, ih]

theorem jsStartsWith_cooldownKey (id : String) :
    jsStartsWith (cooldownKey id) "last_notification_" = true := by
  simp only [jsStartsWith, cooldownKey, String.data_append]
  exact isPrefixOf_append_self "last_notification_".data id.data

theorem lookupCooldown_clearAll (st : List (String × Int)) (id : String) :
    lookupCooldown (clearAllNotificationCooldowns st) (cooldownKey id) =
      none := by
  induction st with
  | nil => rfl
  | cons p st ih =>
    by_cases hk : jsStartsWith p.1 "last_notification_" = true
    · simpa [clearAllNotificationCooldowns, List.filter_cons, hk] using ih
    · have hne : (p.1 == cooldownKey id) = false := by
        rcases h : p.1 == cooldownKey id with _ | _
        · rfl
        · exact absurd (eq_of_beq h ▸ jsStartsWith_cooldownKey id) hk
      simpa [clearAllNotificationCooldowns, List.filter_cons, hk,
        lookupCooldown, List.find?_cons, hne] using ih

theorem find?_map_overwrite (k : String) (v : Int) :
    ∀ st : List (String × Int),
      (st.find? (fun p => p.1 == k)).isSome = true →
      (st.map (fun p => if p.1 == k then (k, v) else p)).find?
        (fun p => p.1 == k) = some (k, v)
  | [], h => by simp at h
  | p :: st, h => by
    by_cases hp : (p.1 == k) = true
    · have hpe : p.1 = k := eq_of_beq hp
      simp [List.find?_cons, hpe, -List.find?_map]
    · have hpe : ¬(p.1 = k) := by simpa using hp
      have hpf : (p.1 == k) = false := by simpa using hp
      have h' : (st.find? (fun p => p.1 == k)).isSome = true := by
        rw [List.find?_cons] at h
        simpa [hpf] using h
      simpa [List.find?_cons, hpe, hpf, -List.find?_map] using
        find?_map_overwrite k v st h'

theorem lookupCooldown_setCooldown (st : List (String × Int)) (k : String)
    (v : Int) : lookupCooldown (setCooldown st k v) k = some v := by
  unfold setCooldown
  by_cases h : (st.find? (fun p => p.1 == k)).isSome = true
  · simp only [h, if_true, lookupCooldown, find?_map_overwrite k v st h]
    rfl
  · simp [h, lookupCooldown, List.find?_cons]

theorem updateGeofences_geofences (perms : Permissions) (s : ServiceState) :
    ((updateGeofences perms s).2).geofences = s.geofences := by
  unfold updateGeofences
  split_ifs <;> simp [saveGeofences]

theorem updateGeofences_state_saved (perms : Permissions)
    (gs : List Geofence) (cds : List (String × Int)) :
    (updateGeofences perms ⟨gs, gs, cds⟩).2 = ⟨gs, gs, cds⟩ := by
  unfold updateGeofences
  split_ifs <;> rfl

theorem upsert_cons (a : Geofence) (as : List Geofence) (g : Geofence) :
    upsert (a :: as) g =
      if a.id == g.id then g :: as else a :: upsert as g := by
  unfold upsert
  by_cases h : (a.id == g.id) = true
  · simp [List.findIdx?_cons, h]
  · simp only [List.findIdx?_cons, h, if_false, Bool.false_eq_true,
      List.findIdx?_start_succ, Nat.zero_add]
    cases hf : List.findIdx? (fun x => x.id == g.id) as with
    | none => simp [hf]
    | some i => simp [hf]

theorem addGeofence_ok (perms : Permissions) (s : ServiceState) (g : Geofence)
    (hv : (g.id.isEmpty || g.name.isEmpty) = false) :
    addGeofence perms s g =
      .ok (⟨upsert s.geofences g, upsert s.geofences g, s.cooldowns⟩,
        (updateGeofences perms
          ⟨upsert s.geofences g, upsert s.geofences g, s.cooldowns⟩).1) := by
  unfold addGeofence
  rw [if_neg (by simp [hv])]
  show (match updateGeofences perms
      ⟨upsert s.geofences g, upsert s.geofences g, s.cooldowns⟩ with
    | (res, s2) => Except.ok (s2, res)) = _
  rcases hu : updateGeofences perms
      ⟨upsert s.geofences g, upsert s.geofences g, s.cooldowns⟩ with ⟨r2, st2⟩
  have h2 : st2 = ⟨upsert s.geofences g, upsert s.geofences g, s.cooldowns⟩ := by
    have := updateGeofences_state_saved perms (upsert s.geofences g) s.cooldowns
    rw [hu] at this
    exact this
  simp [h2, hu]

theorem mem_map_id_upsert (as : List Geofence) (g : Geofence) {x : String}
    (h : x ∈ (upsert as g).map Geofence.id) :
    x = g.id ∨ x ∈ as.map Geofence.id := by
  induction as with
  | nil =>
    simp [upsert] at h
    exact Or.inl h
  | cons a as ih =>
    rw [upsert_cons] at h
    by_cases hid : (a.id == g.id) = true
    · rw [if_pos hid] at h
      simp only [List.map_cons, List.mem_cons] at h
      rcases h with h | h
      · exact Or.inl h
      · exact Or.inr (by simp [h])
    · rw [if_neg hid] at h
      simp only [List.map_cons, List.mem_cons] at h
      rcases h with h | h
      · exact Or.inr (by simp [h])
      · rcases ih h with h' | h'
        · exact Or.inl h'
        · exact Or.inr (by simp [h'])

theorem upsert_map_id_nodup (as : List Geofence) (g : Geofence)
    (h : (as.map Geofence.id).Nodup) :
    ((upsert as g).map Geofence.id).Nodup := by
  induction as with
  | nil => simp [upsert]
  | cons a as ih =>
    rw [upsert_cons]
    by_cases hid : (a.id == g.id) = true
    · rw [if_pos hid]
      have he : a.id = g.id := eq_of_beq hid
      simpa [he] using h
    · rw [if_neg hid]
      have hne : ¬(a.id = g.id) := by simpa using hid
      simp only [List.map_cons, List.nodup_cons] at h ⊢
      refine ⟨?_, ih h.2⟩
      intro hmem
      rcases mem_map_id_upsert as g hmem with he | hmem'
      · exact hne he
      · exact h.1 hmem'

theorem find?_upsert (as : List Geofence) (g : Geofence) :
    (upsert as g).find? (fun x => x.id == g.id) = some g := by
  induction as with
  | nil => simp [upsert, List.find?_cons]
  | cons a as ih =>
    rw [upsert_cons]
    by_cases hid : (a.id == g.id) = true
    · rw [if_pos hid]
      simp [List.find?_cons]
    · rw [if_neg hid]
      have hne : (a.id == g.id) = false := by simpa using hid
      simpa [List.find?_cons, hne] using ih

theorem handleEnter_resolved (gs : List Geofence) (identifier : String)
    (rr : List GeofenceRead) (cds : List (String × Int)) (now : Int)
    (g : Geofence) (hres : resolveGeofence gs identifier = some g) :
    handleEnter identifier (.parsed gs) rr cds now =
      if shouldNotify (lookupCooldown cds (cooldownKey identifier)) now then
        (.notified g.name g.venueId,
          setCooldown cds (cooldownKey identifier) now)
      else (.cooldownSkip g.name, cds) := by
  simp only [handleEnter, hres]

theorem shouldNotify_eq_decide (lastNotification : Option Int) (now : Int) :
    shouldNotify lastNotification now =
      decide (now - lastNotification.getD 0 > NOTIFICATION_COOLDOWN) := rfl

/-! ## Claims -/

/-- Claim C4: for every geofence in the active set, the radius passed to the
OS registration is `max(requested, 100)` meters, while the stored set and
`getActiveGeofences()` report the unclamped requested radius; a requested
radius of 50 registers as 100 with the OS but is reported as 50. -/
theorem C4_os_radius_clamped_reported_unclamped (perms : Permissions)
    (s : ServiceState) (hf : perms.foreground = true)
    (hb : perms.background = true) (hne : s.geofences ≠ []) :
    (updateGeofences perms s).1 = .started (s.geofences.map toRegion) ∧
    (∀ g : Geofence, (toRegion g).radius = max g.radius 100) ∧
    getActiveGeofences (updateGeofences perms s).2 = s.geofences ∧
    ((updateGeofences perms s).2).storedGeofences = s.geofences ∧
    (∀ g : Geofence, g.radius = 50 → (toRegion g).radius = 100) := by
  have hemp : s.geofences.isEmpty = false := by
    rcases he : s.geofences.isEmpty with _ | _
    · rfl
    · exact absurd (List.isEmpty_iff.mp he) hne
  refine ⟨?_, fun g => rfl, ?_, ?_, ?_⟩
  · simp [updateGeofences, hf, hb, hemp, saveGeofences]
  · simp [updateGeofences, hf, hb, hemp, saveGeofences, getActiveGeofences]
  · simp [updateGeofences, hf, hb, hemp, saveGeofences]
  · intro g hg
    show max g.radius 100 = 100
    rw [hg]
    norm_num

/-- Witness for C4 at a concrete state with one geofence of radius 50. -/
theorem C4_witness :
    sampleState.geofences ≠ [] ∧
    (updateGeofences ⟨true, true⟩ sampleState).1 = .started [toRegion gA] ∧
    (toRegion gA).radius = 100 ∧ gA.radius = 50 ∧
    getActiveGeofences (updateGeofences ⟨true, true⟩ sampleState).2 = [gA] := by
  have h := C4_os_radius_clamped_reported_unclamped ⟨true, true⟩ sampleState
    rfl rfl (by decide)
  exact ⟨by decide, h.1, h.2.2.2.2 gA (by norm_num [gA]), by norm_num [gA],
    h.2.2.1⟩

/-- Claim C5: `addGeofence` is an upsert: adding a geofence whose id already
exists replaces the existing record rather than appending, any sequence of
adds leaves at most one record per id, and the last-added fields win. -/
theorem C5_addGeofence_is_upsert (gs : List Geofence) (g : Geofence)
    (perms : Permissions) (s : ServiceState) :
    (gs.any (fun x => x.id == g.id) = true →
      (upsert gs g).length = gs.length) ∧
    ((gs.map Geofence.id).Nodup → ((upsert gs g).map Geofence.id).Nodup) ∧
    (upsert gs g).find? (fun x => x.id == g.id) = some g ∧
    (∀ ops : List Geofence,
      ((ops.foldl upsert []).map Geofence.id).Nodup) ∧
    (∀ s' res, addGeofence perms s g = .ok (s', res) →
      s'.geofences = upsert s.geofences g) := by
  refine ⟨?_, upsert_map_id_nodup gs g, find?_upsert gs g, ?_, ?_⟩
  · intro hany
    have hsome : (gs.findIdx? (fun x => x.id == g.id)).isSome = true := by
      rw [List.findIdx?_isSome]
      exact hany
    rcases Option.isSome_iff_exists.mp hsome with ⟨i, hi⟩
    unfold upsert
    rw [hi]
    show (gs.set i g).length = gs.length
    exact List.length_set gs i g
  · intro ops
    suffices h : ∀ acc : List Geofence, (acc.map Geofence.id).Nodup →
        ((ops.foldl upsert acc).map Geofence.id).Nodup by
      exact h [] (by simp)
    induction ops with
    | nil => intro acc hacc; simpa using hacc
    | cons o ops ih =>
      intro acc hacc
      exact ih (upsert acc o) (upsert_map_id_nodup acc o hacc)
  · intro s' res h
    by_cases hv : (g.id.isEmpty || g.name.isEmpty) = true
    · unfold addGeofence at h
      rw [if_pos hv] at h
      exact absurd h (by simp)
    · rw [addGeofence_ok perms s g (by simpa using hv)] at h
      simp only [Except.ok.injEq, Prod.mk.injEq] at h
      rw [← h.1]

/-- Witness for C5: adding `gA2` over `gA` (same id) yields one record with
the new fields. -/
theorem C5_witness :
    [gA].any (fun x => x.id == gA2.id) = true ∧
    (upsert [gA] gA2).length = 1 ∧
    (upsert [gA] gA2).find? (fun x => x.id == gA2.id) = some gA2 := by
  have h := C5_addGeofence_is_upsert [gA] gA2 ⟨true, true⟩ sampleState
  exact ⟨by decide, h.1 (by decide), h.2.2.1⟩

/-- Claim C8: when either the foreground or the background location
permission is missing, the monitoring start logs a warning and returns
without error, the geofence state is left unchanged, and the store mutation
`addGeofence` performed before attempting to monitor still stands. -/
theorem C8_permission_missing_graceful (perms : Permissions)
    (h : perms.foreground = false ∨ perms.background = false) :
    (∀ s : ServiceState, (updateGeofences perms s).2 = s) ∧
    (∀ s : ServiceState,
      (updateGeofences perms s).1 = .noForegroundPermission ∨
      (updateGeofences perms s).1 = .noBackgroundPermission) ∧
    (∀ (s : ServiceState) (g : Geofence),
      (g.id.isEmpty || g.name.isEmpty) = false →
      addGeofence perms s g =
        .ok (⟨upsert s.geofences g, upsert s.geofences g, s.cooldowns⟩,
          (updateGeofences perms
            ⟨upsert s.geofences g, upsert s.geofences g, s.cooldowns⟩).1)) := by
  have hbranch : ∀ s : ServiceState,
      updateGeofences perms s = (.noForegroundPermission, s) ∨
      updateGeofences perms s = (.noBackgroundPermission, s) := by
    intro s
    rcases h with hf | hb
    · exact Or.inl (by simp [updateGeofences, hf])
    · rcases hfg : perms.foreground with _ | _
      · exact Or.inl (by simp [updateGeofences, hfg])
      · exact Or.inr (by simp [updateGeofences, hfg, hb])
  refine ⟨?_, ?_, ?_⟩
  · intro s
    rcases hbranch s with hs | hs <;> rw [hs]
  · intro s
    rcases hbranch s with hs | hs
    · exact Or.inl (by rw [hs])
    · exact Or.inr (by rw [hs])
  · intro s g hv
    exact addGeofence_ok perms s g hv

/-- Witness for C8: missing foreground permission at a concrete state. -/
theorem C8_witness :
    (updateGeofences ⟨false, true⟩ sampleState).2 = sampleState ∧
    ((updateGeofences ⟨false, true⟩ sampleState).1 =
        .noForegroundPermission ∨
      (updateGeofences ⟨false, true⟩ sampleState).1 =
        .noBackgroundPermission) := by
  have h := C8_permission_missing_graceful ⟨false, true⟩ (Or.inl rfl)
  exact ⟨h.1 sampleState, h.2.1 sampleState⟩

/-- Claim C1: for an ENTER event whose store read yields a parseable
geofence set, the handler resolves the region identifier via the fallback
chain — exact `id` match, then `venueId` match, then `name` match — and when
all three fail it logs an error and sends zero notifications without
throwing (it returns with the unresolved-skip outcome). -/
theorem C1_fallback_chain_unresolved (gs : List Geofence)
    (identifier : String) (rr : List GeofenceRead)
    (cds : List (String × Int)) (now : Int) :
    (∀ g, gs.find? (fun x => x.id == identifier) = some g →
      resolveGeofence gs identifier = some g) ∧
    (gs.find? (fun x => x.id == identifier) = none →
      ∀ g, gs.find? (fun x => x.venueId == some identifier) = some g →
        resolveGeofence gs identifier = some g) ∧
    (gs.find? (fun x => x.id == identifier) = none →
      gs.find? (fun x => x.venueId == some identifier) = none →
      resolveGeofence gs identifier =
        gs.find? (fun x => x.name == identifier)) ∧
    (resolveGeofence gs identifier = none →
      handleEnter identifier (.parsed gs) rr cds now =
        (.unresolvedSkip, cds)) := by
  refine ⟨?_, ?_, ?_, ?_⟩
  · intro g hg
    simp [resolveGeofence, hg]
  · intro h1 g hg
    simp [resolveGeofence, h1, hg]
  · intro h1 h2
    simp [resolveGeofence, h1, h2]
  · intro hres
    simp [handleEnter, hres]

/-- Witness for C1: an identifier matching no stored id, venueId or name. -/
theorem C1_witness :
    resolveGeofence [gA] "zzz" = none ∧
    handleEnter "zzz" (.parsed [gA]) [] [] 7000 = (.unresolvedSkip, []) :=
  ⟨by decide,
    (C1_fallback_chain_unresolved [gA] "zzz" [] [] 7000).2.2.2 (by decide)⟩

/-- Claim C2: for an ENTER event that resolves to a geofence, the handler
notifies iff `now` minus the last-fired timestamp for the identifier is
strictly greater than the cooldown window (an absent record counts as
never fired, so the first event notifies), and on dispatch the fired
timestamp is recorded. -/
theorem C2_cooldown_gate (gs : List Geofence) (identifier : String)
    (rr : List GeofenceRead) (cds : List (String × Int)) (now : Int)
    (g : Geofence) (hres : resolveGeofence gs identifier = some g) :
    ((handleEnter identifier (.parsed gs) rr cds now).1 =
        .notified g.name g.venueId ↔
      now - (lookupCooldown cds (cooldownKey identifier)).getD 0 >
        NOTIFICATION_COOLDOWN) ∧
    (lookupCooldown cds (cooldownKey identifier) = none →
      now > NOTIFICATION_COOLDOWN →
      (handleEnter identifier (.parsed gs) rr cds now).1 =
        .notified g.name g.venueId) ∧
    ((handleEnter identifier (.parsed gs) rr cds now).1 =
        .notified g.name g.venueId →
      lookupCooldown (handleEnter identifier (.parsed gs) rr cds now).2
        (cooldownKey identifier) = some now) := by
  have hmain := handleEnter_resolved gs identifier rr cds now g hres
  by_cases hsn :
      shouldNotify (lookupCooldown cds (cooldownKey identifier)) now = true
  · rw [hmain, if_pos hsn]
    have hgt : now - (lookupCooldown cds (cooldownKey identifier)).getD 0 >
        NOTIFICATION_COOLDOWN := by
      rw [shouldNotify_eq_decide] at hsn
      exact of_decide_eq_true hsn
    exact ⟨⟨fun _ => hgt, fun _ => rfl⟩, fun _ _ => rfl,
      fun _ => lookupCooldown_setCooldown cds (cooldownKey identifier) now⟩
  · rw [hmain, if_neg hsn]
    have hngt : ¬(now - (lookupCooldown cds (cooldownKey identifier)).getD 0 >
        NOTIFICATION_COOLDOWN) := by
      rw [shouldNotify_eq_decide] at hsn
      simpa using hsn
    refine ⟨⟨fun hc => absurd hc (by simp), fun hc => absurd hc hngt⟩,
      ?_, fun hc => absurd hc (by simp)⟩
    intro hnone hnow
    exfalso
    apply hsn
    rw [shouldNotify_eq_decide, hnone]
    simpa using hnow

/-- Witness for C2: first event for `gA` at `now = 7000` with an empty
cooldown store notifies and records the timestamp. -/
theorem C2_witness :
    (handleEnter "a" (.parsed [gA]) [] [] 7000).1 =
      .notified "n" (some "v") ∧
    lookupCooldown (handleEnter "a" (.parsed [gA]) [] [] 7000).2
      (cooldownKey "a") = some 7000 := by
  have h := C2_cooldown_gate [gA] "a" [] [] 7000 gA (by decide)
  have h1 := h.2.1 (by decide) (by decide)
  exact ⟨h1, h.2.2 h1⟩

/-- Counterexample to C9 as stated: the single stored geofence has id `"a"`
and venue id `"v"`; an ENTER event for region identifier `"v"` resolves to it
through the `venueId` fallback and notifies, yet the fired timestamp is
stored under the key for `"v"` and no cooldown record exists under the
geofence's own id `"a"`. -/
theorem C9_counterexample :
    resolveGeofence [gA] "v" = some gA ∧
    gA.id = "a" ∧
    handleEnter "v" (.parsed [gA]) [] [] 7000 =
      (.notified "n" (some "v"), [("last_notification_v", 7000)]) ∧
    lookupCooldown (handleEnter "v" (.parsed [gA]) [] [] 7000).2
      (cooldownKey "a") = none := by
  refine ⟨by decide, rfl, by decide, by decide⟩

/-- Claim C9 as amended: cooldown records are keyed by the event's region
identifier — the last-fired timestamp is read and written under
`last_notification_${region.identifier}` — which coincides with the
geofence's id only when the event resolved by exact id match, while venueId-
or name-fallback resolutions use the identifier's own key. -/
theorem C9_cooldown_keyed_by_identifier (gs : List Geofence)
    (identifier : String) (rr : List GeofenceRead)
    (cds : List (String × Int)) (now : Int) (g : Geofence)
    (hres : resolveGeofence gs identifier = some g)
    (hcd : shouldNotify (lookupCooldown cds (cooldownKey identifier)) now =
      true) :
    handleEnter identifier (.parsed gs) rr cds now =
      (.notified g.name g.venueId,
        setCooldown cds (cooldownKey identifier) now) := by
  rw [handleEnter_resolved gs identifier rr cds now g hres, if_pos hcd]

/-- Witness for the amended C9 at the venueId-fallback input. -/
theorem C9_witness :
    handleEnter "v" (.parsed [gA]) [] [] 7000 =
      (.notified gA.name gA.venueId,
        setCooldown [] (cooldownKey "v") 7000) :=
  C9_cooldown_keyed_by_identifier [gA] "v" [] [] 7000 gA (by decide)
    (by decide)

theorem runRetries_polls_le (identifier : String) :
    ∀ (fuel : Nat) (reads : List GeofenceRead),
      (runRetries identifier fuel reads).2 ≤ fuel
  | 0, _ => Nat.le_refl 0
  | fuel + 1, reads => by
    unfold runRetries
    cases reads.headD .noData with
    | noData =>
      exact Nat.succ_le_succ (runRetries_polls_le identifier fuel reads.tail)
    | malformed => exact Nat.succ_le_succ (Nat.zero_le fuel)
    | parsed gs =>
      show (match (gs.find? (fun g => g.id == identifier) :
          Option Geofence) with
        | some g => ((.ok (g.name, g.venueId) :
            Except Unit (String × Option String)), 1)
        | none =>
          let r := runRetries identifier fuel reads.tail
          (r.1, r.2 + 1)).2 ≤ fuel + 1
      cases gs.find? (fun g => g.id == identifier) with
      | some g => exact Nat.succ_le_succ (Nat.zero_le fuel)
      | none =>
        exact Nat.succ_le_succ
          (runRetries_polls_le identifier fuel reads.tail)

theorem runRetries_polls_pos (identifier : String) (fuel : Nat)
    (reads : List GeofenceRead) :
    1 ≤ (runRetries identifier (fuel + 1) reads).2 := by
  unfold runRetries
  cases reads.headD .noData with
  | noData =>
    exact Nat.succ_le_succ (Nat.zero_le _)
  | malformed => exact Nat.le_refl 1
  | parsed gs =>
    show 1 ≤ (match (gs.find? (fun g => g.id == identifier) :
        Option Geofence) with
      | some g => ((.ok (g.name, g.venueId) :
          Except Unit (String × Option String)), 1)
      | none =>
        let r := runRetries identifier fuel reads.tail
        (r.1, r.2 + 1)).2
    cases gs.find? (fun g => g.id == identifier) with
    | some g => exact Nat.le_refl 1
    | none => exact Nat.succ_le_succ (Nat.zero_le _)

/-- Counterexample to C3 as stated: a non-empty but unparseable store read —
the "unreadable" case — makes the handler give up at once with zero retry
polls, even when a later read would have produced the data, rather than
retrying with bounded backoff as the claim asserts for that case. -/
theorem C3_counterexample :
    handlerPolls "x" .malformed [.parsed [gA]] = 0 ∧
    handleEnter "x" .malformed [.parsed [gA]] [] 7000 =
      (.parseErrorSkip, []) :=
  ⟨rfl, rfl⟩

/-- Claim C3 as amended: only a store read that is `null` or the literal
`'[]'` triggers the bounded retry loop — at least one and at most six 500ms
polls (~3 seconds), never indefinitely — and an event still unresolved after
the polls is dropped without a notification; an unreadable (unparseable)
store read is instead abandoned immediately, with zero polls and no
notification. -/
theorem C3_bounded_retry (identifier : String) (rr : List GeofenceRead)
    (cds : List (String × Int)) (now : Int) :
    1 ≤ handlerPolls identifier .noData rr ∧
    handlerPolls identifier .noData rr ≤ 6 ∧
    handlerPolls identifier .malformed rr = 0 ∧
    handleEnter identifier .malformed rr cds now = (.parseErrorSkip, cds) ∧
    (∀ vid, (runRetries identifier 6 rr).1 = .ok (identifier, vid) →
      handleEnter identifier .noData rr cds now = (.retryGiveUp, cds)) := by
  refine ⟨runRetries_polls_pos identifier 5 rr,
    runRetries_polls_le identifier 6 rr, rfl, rfl, ?_⟩
  intro vid h
  simp [handleEnter, h]

/-- Witness for the amended C3: six empty reads, then give-up. -/
theorem C3_witness :
    1 ≤ handlerPolls "x" .noData [] ∧
    handlerPolls "x" .noData [] ≤ 6 ∧
    (runRetries "x" 6 []).1 = .ok ("x", none) ∧
    handleEnter "x" .noData [] [] 7000 = (.retryGiveUp, []) := by
  have h := C3_bounded_retry "x" [] [] 7000
  exact ⟨h.1, h.2.1, rfl, h.2.2.2.2 none rfl⟩

/-- Claim C7: after `clearAllGeofences()` the active set is empty, the
persisted set is the empty array, and every per-geofence cooldown record is
gone, so a subsequent ENTER event for any previously cooled-down id is
treated as never fired (and, for a resolvable event, notifies). -/
theorem C7_clear_purges_everything (s : ServiceState) (id : String)
    (now : Int) (hnow : now > NOTIFICATION_COOLDOWN) :
    getActiveGeofences (clearAllGeofences s) = [] ∧
    (clearAllGeofences s).storedGeofences = [] ∧
    lookupCooldown (clearAllGeofences s).cooldowns (cooldownKey id) = none ∧
    shouldNotify
      (lookupCooldown (clearAllGeofences s).cooldowns (cooldownKey id))
      now = true ∧
    (∀ (gs : List Geofence) (g : Geofence) (rr : List GeofenceRead),
      resolveGeofence gs id = some g →
      (handleEnter id (.parsed gs) rr (clearAllGeofences s).cooldowns
        now).1 = .notified g.name g.venueId) := by
  have hlook :
      lookupCooldown (clearAllGeofences s).cooldowns (cooldownKey id) =
        none := by
    show lookupCooldown (clearAllNotificationCooldowns s.cooldowns)
      (cooldownKey id) = none
    exact lookupCooldown_clearAll s.cooldowns id
  have hsn : shouldNotify
      (lookupCooldown (clearAllGeofences s).cooldowns (cooldownKey id))
      now = true := by
    rw [hlook, shouldNotify_eq_decide]
    simpa using hnow
  refine ⟨rfl, rfl, hlook, hsn, ?_⟩
  intro gs g rr hres
  rw [handleEnter_resolved gs id rr (clearAllGeofences s).cooldowns now g
    hres, if_pos hsn]

/-- Witness for C7 at a concrete state whose cooldown store holds a record
for id `"a"`. -/
theorem C7_witness :
    lookupCooldown sampleState.cooldowns (cooldownKey "a") = some 500 ∧
    getActiveGeofences (clearAllGeofences sampleState) = [] ∧
    (clearAllGeofences sampleState).storedGeofences = [] ∧
    lookupCooldown (clearAllGeofences sampleState).cooldowns
      (cooldownKey "a") = none ∧
    (handleEnter "a" (.parsed [gA]) []
      (clearAllGeofences sampleState).cooldowns 7000).1 =
      .notified gA.name gA.venueId := by
  have h := C7_clear_purges_everything sampleState "a" 7000 (by decide)
  exact ⟨by decide, h.1, h.2.1, h.2.2.1, h.2.2.2.2 [gA] gA [] (by decide)⟩

theorem except_ok_bind {ε α β : Type} (a : α) (f : α → Except ε β) :
    (Except.ok a >>= f : Except ε β) = f a := rfl

theorem except_pure_eq_ok {ε α : Type} (a : α) :
    (pure a : Except ε α) = Except.ok a := rfl

theorem except_map_ok_eq {ε α β : Type} (f : α → β) (a : α) :
    Except.map f (Except.ok a : Except ε α) = Except.ok (f a) := rfl

theorem upsert_of_fresh (gs : List Geofence) (g : Geofence)
    (h : ∀ x ∈ gs, (x.id == g.id) = false) :
    upsert gs g = gs ++ [g] := by
  unfold upsert
  rw [List.findIdx?_eq_none_iff.mpr h]

theorem rebuild_loop (perms : Permissions) (d : ℚ) :
    ∀ (items : List BucketItem) (gs : List Geofence)
      (cds : List (String × Int)),
      ((items.filter qualifies).map BucketItem.id).Nodup →
      (∀ item ∈ items, qualifies item = true →
        (item.id.isEmpty || item.venue.name.isEmpty) = false) →
      (∀ x ∈ gs, ∀ item ∈ items, qualifies item = true →
        (x.id == item.id) = false) →
      List.foldlM
        (fun st item =>
          if qualifies item then
            (addGeofence perms st (itemGeofence d item)).map (fun r => r.1)
          else pure st)
        (⟨gs, gs, cds⟩ : ServiceState) items =
      .ok ⟨gs ++ (items.filter qualifies).map (itemGeofence d),
           gs ++ (items.filter qualifies).map (itemGeofence d), cds⟩ := by
  intro items
  induction items with
  | nil =>
    intro gs cds _ _ _
    simp [List.foldlM_nil, except_pure_eq_ok]
  | cons item items ih =>
    intro gs cds hids hvalid hfresh
    rw [List.foldlM_cons]
    by_cases hq : qualifies item = true
    · have hv : ((itemGeofence d item).id.isEmpty ||
          (itemGeofence d item).name.isEmpty) = false :=
        hvalid item (List.mem_cons_self item items) hq
      have hfr : ∀ x ∈ gs, (x.id == (itemGeofence d item).id) = false :=
        fun x hx => hfresh x hx item (List.mem_cons_self item items) hq
      have hids' : item.id ∉ (items.filter qualifies).map BucketItem.id ∧
          ((items.filter qualifies).map BucketItem.id).Nodup := by
        rw [List.filter_cons, if_pos hq] at hids
        simpa [List.nodup_cons] using hids
      rw [if_pos hq,
        addGeofence_ok perms ⟨gs, gs, cds⟩ (itemGeofence d item) hv]
      show List.foldlM _ (⟨upsert gs (itemGeofence d item),
        upsert gs (itemGeofence d item), cds⟩ : ServiceState) items = _
      rw [upsert_of_fresh gs (itemGeofence d item) hfr]
      have hrec := ih (gs ++ [itemGeofence d item]) cds hids'.2
        (fun it hit hq' => hvalid it (List.mem_cons_of_mem item hit) hq')
        ?_
      · rw [hrec, List.filter_cons, if_pos hq, List.map_cons,
          List.append_assoc]
        rfl
      · intro x hx it hit hq'
        rcases List.mem_append.mp hx with hx | hx
        · exact hfresh x hx it (List.mem_cons_of_mem item hit) hq'
        · have hxg : x = itemGeofence d item := by simpa using hx
          subst hxg
          show (item.id == it.id) = false
          have hmem : it.id ∈ (items.filter qualifies).map BucketItem.id :=
            List.mem_map.mpr ⟨it, List.mem_filter.mpr ⟨hit, hq'⟩, rfl⟩
          exact beq_eq_false_iff_ne.mpr fun he => hids'.1 (he ▸ hmem)
    · have hqf : qualifies item = false := by simpa using hq
      rw [if_neg hq]
      show List.foldlM _ (⟨gs, gs, cds⟩ : ServiceState) items = _
      have hids' : ((items.filter qualifies).map BucketItem.id).Nodup := by
        rwa [List.filter_cons, if_neg hq] at hids
      rw [ih gs cds hids'
        (fun it hit hq' => hvalid it (List.mem_cons_of_mem item hit) hq')
        (fun x hx it hit hq' =>
          hfresh x hx it (List.mem_cons_of_mem item hit) hq'),
        List.filter_cons, if_neg hq]

/-- Claim C6: `rebuildGeofencesFromBucketList(items, radiusMiles)` first
clears all existing geofences, then adds exactly one geofence per input item
with per-item alerts enabled and truthy coordinates — each with radius
`radiusMiles * 1609.34` meters, id equal to the item id, name and venueId
from the item's venue — and none for the other items. -/
theorem C6_rebuild_from_saved_items (perms : Permissions) (s : ServiceState)
    (items : List BucketItem) (d : ℚ)
    (hids : ((items.filter qualifies).map BucketItem.id).Nodup)
    (hvalid : ∀ item ∈ items, qualifies item = true →
      (item.id.isEmpty || item.venue.name.isEmpty) = false) :
    ∃ s', rebuildGeofencesFromBucketList perms s items d = .ok s' ∧
      s'.geofences = (items.filter qualifies).map (itemGeofence d) ∧
      getActiveGeofences s' =
        (items.filter qualifies).map (itemGeofence d) ∧
      (∀ item : BucketItem,
        (itemGeofence d item).radius = d * (160934 / 100 : ℚ) ∧
        (itemGeofence d item).id = item.id ∧
        (itemGeofence d item).name = item.venue.name ∧
        (itemGeofence d item).venueId = some item.venue.id) := by
  refine ⟨⟨(items.filter qualifies).map (itemGeofence d),
    (items.filter qualifies).map (itemGeofence d),
    clearAllNotificationCooldowns s.cooldowns⟩, ?_, rfl, rfl,
    fun item => ⟨rfl, rfl, rfl, rfl⟩⟩
  unfold rebuildGeofencesFromBucketList
  have hstart : clearAllGeofences s =
      (⟨[], [], clearAllNotificationCooldowns s.cooldowns⟩ :
        ServiceState) := rfl
  rw [hstart]
  have h := rebuild_loop perms d items []
    (clearAllNotificationCooldowns s.cooldowns) hids hvalid
    (by intro x hx; simp at hx)
  simpa using h

/-- Witness for C6: the spec's end-to-end scenario, `radiusMiles = 1.25`,
yielding exactly two geofences of radius `2011.675` meters. -/
theorem C6_witness :
    ∃ s', rebuildGeofencesFromBucketList ⟨true, true⟩ sampleState
        [item1, item2, item3] (5 / 4) = .ok s' ∧
      s'.geofences =
        [itemGeofence (5 / 4) item1, itemGeofence (5 / 4) item2] ∧
      (itemGeofence (5 / 4) item1).radius = 80467 / 40 := by
  rcases C6_rebuild_from_saved_items ⟨true, true⟩ sampleState
      [item1, item2, item3] (5 / 4) (by decide) (by decide)
    with ⟨s', h1, h2, h3, h4⟩
  refine ⟨s', h1, ?_, ?_⟩
  · rw [h2]
    rfl
  · rw [(h4 item1).1]
    norm_num

/-- Claim C10: the rebuild's coordinate check is a truthiness test, so an
item with alerts enabled whose latitude or longitude is exactly `0` — a
geographically valid coordinate — produces no geofence. -/
theorem C10_zero_coordinate_excluded (item : BucketItem)
    (_hen : item.notificationsEnabled = true)
    (hzero : item.venue.latitude = some 0 ∨
      item.venue.longitude = some 0) :
    qualifies item = false ∧
    (∀ (perms : Permissions) (s : ServiceState) (d : ℚ),
      rebuildGeofencesFromBucketList perms s [item] d =
        .ok (clearAllGeofences s) ∧
      (clearAllGeofences s).geofences = []) := by
  have hq : qualifies item = false := by
    rcases hzero with h | h
    · simp [qualifies, truthyCoord, h]
    · simp [qualifies, truthyCoord, h]
  refine ⟨hq, fun perms s d => ⟨?_, rfl⟩⟩
  unfold rebuildGeofencesFromBucketList
  rw [List.foldlM_cons]
  simp only [hq, Bool.false_eq_true, if_false, except_pure_eq_ok,
    except_ok_bind, List.foldlM_nil]

/-- Witness for C10 at `itemZ`. -/
theorem C10_witness :
    itemZ.notificationsEnabled = true ∧
    itemZ.venue.latitude = some 0 ∧
    qualifies itemZ = false ∧
    rebuildGeofencesFromBucketList ⟨true, true⟩ sampleState [itemZ] 1 =
      .ok (clearAllGeofences sampleState) := by
  have h := C10_zero_coordinate_excluded itemZ rfl (Or.inl rfl)
  exact ⟨rfl, rfl, h.1, (h.2 ⟨true, true⟩ sampleState 1).1⟩

end DinnaFind
